import Mathlib

/-!
Verification of the weatherscreen view state machine (weatherscreen.py,
views.py) against its natural-language specification.

The Python program is shallowly embedded: the `App` object's mutable
attributes become the fields of `AppState`; each method becomes a state
transformer.  External effects are made explicit:

* the OpenWeatherMap client (`owm.current()`, `owm.forecasts()`,
  `owm.icon(code)`) is a parameter of type `Owm`, each call returning
  `Except Err _` (a raised exception is `.error`);
* LED writes and network fetches are recorded in an event list `List Ev`
  so that ordering claims about the busy indicator can be stated;
* drawing is modelled as the list of text lines currently on the frame
  buffer (`screen`); numeric/locale string formatting inside a line is
  abbreviated via `toString` since no claim depends on it;
* Python exceptions carry their message as a `String`.

A method that can raise returns an `OpResult`: the state as mutated up to
the point of return or raise, the events emitted, and `.ok ()` or
`.error e`.
-/

deriving instance DecidableEq for Except

namespace Weatherscreen

/-- A Python exception, identified by its message. -/
abbrev Err := String

/-- RGB LED states the program uses (`Led.OFF/YELLOW/RED`). -/
inductive LedColor
  | off
  | yellow
  | red
  deriving DecidableEq, Repr

/-- One fetched weather observation, as the fields of the OpenWeatherMap
JSON that the program reads: `dt` (epoch seconds), `main.temp`,
`main.feels_like`, `main.humidity`, the icon code, and the optional
location `name`.  Temperatures are kept as integers; no claim depends on
fractional values. -/
structure Weather where
  dt : Int
  temp : Int
  feels_like : Int
  humidity : Int
  icon : String
  name : Option String
  deriving DecidableEq, Repr

/-- The external OpenWeatherMap client: the outcome each of its calls
would have if issued now.  `.error e` models the call raising. -/
structure Owm where
  current : Except Err Weather
  forecasts : Except Err (List Weather)
  icon : String → Except Err Unit

/-- Which button callback is currently bound to `button_handler.action`:
the initial no-op lambda, or the closure installed by `page_view`,
`four_view` or `errors_view`. -/
inductive ButtonDispatch
  | initB
  | pageB
  | fourB
  | errorsB
  deriving DecidableEq, Repr

/-- Which action is bound to `loop_handler.action`: `None`, or the view
method installed by `page_view` / `four_view`. -/
inductive LoopDispatch
  | noneL
  | pageL
  | fourL
  deriving DecidableEq, Repr

/-- The four physical buttons of the Display HAT Mini. -/
inductive Pin
  | A
  | B
  | X
  | Y
  deriving DecidableEq, Repr

/-- The mutable attributes of the `App` object, plus the frame buffer
contents (`screen`: the text lines drawn since the last `clear`). -/
structure AppState where
  errors : List Err
  current_weather : Option Weather
  forecasts : List Weather
  last_update_forecasts : Int
  fidx : Int
  led : LedColor
  screen : List String
  buttonAction : ButtonDispatch
  loopAction : LoopDispatch
  deriving DecidableEq, Repr

/-- Externally visible events, in program order: LED writes and network
fetches. -/
inductive Ev
  | setLed (c : LedColor)
  | fetchCurrent
  | fetchForecasts
  | fetchIcon (code : String)
  | redraw
  deriving DecidableEq, Repr

/-- Result of running a method that can raise: the state as left at
return or raise time, the events emitted, and the outcome. -/
structure OpResult where
  state : AppState
  events : List Ev
  result : Except Err Unit

/-- `App.handle`: log, append the exception to `self.errors`, set the LED
red. -/
def handle (s : AppState) (e : Err) : AppState :=
  { s with errors := s.errors ++ [e], led := .red }

/-- The fetch path of `App.update_current_weather`: LED yellow,
`owm.current()`, then LED off — the LED-off line is only reached when the
fetch returns normally. -/
def fetch_current (owm : Owm) (s : AppState) : OpResult :=
  let s1 := { s with led := .yellow }
  match owm.current with
  | .ok w =>
      { state := { s1 with current_weather := some w, led := .off },
        events := [.setLed .yellow, .fetchCurrent, .setLed .off],
        result := .ok () }
  | .error e =>
      { state := s1,
        events := [.setLed .yellow, .fetchCurrent],
        result := .error e }

/-- `App.update_current_weather`: skip when a snapshot is cached and
`time.time() - self.current_weather["dt"] < 60`; otherwise fetch. -/
def update_current_weather (owm : Owm) (now : Int) (s : AppState) : OpResult :=
  match s.current_weather with
  | some w =>
      if now - w.dt < 60 then
        { state := s, events := [], result := .ok () }
      else
        fetch_current owm s
  | none => fetch_current owm s

/-- `App.update_forecasts`: skip when `self.forecasts` is non-empty and
`self.last_update_forecasts >= time.time() - 3600`; otherwise LED yellow,
fetch, record the fetch time, LED off. -/
def update_forecasts (owm : Owm) (now : Int) (s : AppState) : OpResult :=
  if s.forecasts ≠ [] ∧ s.last_update_forecasts ≥ now - 3600 then
    { state := s, events := [], result := .ok () }
  else
    let s1 := { s with led := .yellow }
    match owm.forecasts with
    | .ok fs =>
        let s2 := { s1 with forecasts := fs, last_update_forecasts := now,
                            led := LedColor.off }
        { state := s2,
          events := [.setLed .yellow, .fetchForecasts, .setLed .off],
          result := .ok () }
    | .error e =>
        { state := s1,
          events := [.setLed .yellow, .fetchForecasts],
          result := .error e }

/-- Python list indexing `l[i]` for an `int` index: negative indices wrap
once from the end; anything else out of range raises `IndexError`. -/
def pyIndex {α : Type} (l : List α) (i : Int) : Except Err α :=
  let j := if i < 0 then i + l.length else i
  if j < 0 then .error "IndexError: list index out of range"
  else
    match l.get? j.toNat with
    | some x => .ok x
    | none => .error "IndexError: list index out of range"

/-- Clamp a Python slice endpoint into `0 .. len`. -/
def pyNorm (len : Nat) (i : Int) : Nat :=
  (max 0 (min (len : Int) (if i < 0 then (len : Int) + i else i))).toNat

/-- Python slicing `l[a:b]` (step 1): never raises. -/
def pySlice {α : Type} (l : List α) (a b : Int) : List α :=
  (l.take (pyNorm l.length b)).drop (pyNorm l.length a)

/-- `timestamp2str`: strftime formatting abbreviated to the timestamp
value (no claim depends on the text). -/
def timestamp2str (dt : Int) : String :=
  "time " ++ toString dt

/-- The text lines `App.paint_weather` draws for a snapshot, in draw
order. -/
def paint_lines (w : Weather) : List String :=
  [toString w.temp ++ " C, " ++ toString w.humidity ++ "%",
   "(feels like " ++ toString w.feels_like ++ " C)"]
  ++ (match w.name with | some n => [n] | none => [])
  ++ [timestamp2str w.dt]

/-- `App.paint_weather`: clears the buffer, fetches the icon, draws the
lines.  A `None` argument raises at `weather["weather"]` (after the
clear); a failed icon fetch raises after the clear. -/
def paint_weather (owm : Owm) (w? : Option Weather) (s : AppState) : OpResult :=
  let s0 := { s with screen := [] }
  match w? with
  | none =>
      { state := s0, events := [],
        result := .error "TypeError: NoneType object is not subscriptable" }
  | some w =>
      match owm.icon w.icon with
      | .error e =>
          { state := s0, events := [.fetchIcon w.icon], result := .error e }
      | .ok _ =>
          { state := { s0 with screen := paint_lines w },
            events := [.fetchIcon w.icon],
            result := .ok () }

/-- `App.page_view`: refresh both caches inside `try/except` (a raise in
the first call skips the second; the handler appends one error), build
`weathers = [current_weather, *forecasts]`, paint `weathers[fidx]`, draw
the Current/Forecast label, rebind the button and loop handlers, redraw.
An `IndexError` from the subscript or a raise inside `paint_weather`
escapes the method. -/
def page_view (owm : Owm) (now : Int) (s : AppState) : OpResult :=
  let r1 := update_current_weather owm now s
  let su : AppState × List Ev :=
    match r1.result with
    | .error e => (handle r1.state e, r1.events)
    | .ok _ =>
        let r2 := update_forecasts owm now r1.state
        match r2.result with
        | .error e => (handle r2.state e, r1.events ++ r2.events)
        | .ok _ => (r2.state, r1.events ++ r2.events)
  let s1 := su.1
  let ev1 := su.2
  let weathers : List (Option Weather) :=
    s1.current_weather :: s1.forecasts.map some
  match pyIndex weathers s1.fidx with
  | .error e => { state := s1, events := ev1, result := .error e }
  | .ok w? =>
      let rp := paint_weather owm w? s1
      match rp.result with
      | .error e =>
          { state := rp.state, events := ev1 ++ rp.events, result := .error e }
      | .ok _ =>
          let label := if s1.fidx = 0 then "Current" else "Forecast"
          { state := { rp.state with
                        screen := rp.state.screen ++ [label],
                        buttonAction := .pageB,
                        loopAction := .pageL },
            events := ev1 ++ rp.events ++ [.redraw],
            result := .ok () }

/-- The text lines `App.paint_weather_small` draws for a snapshot. -/
def paint_small_lines (w : Weather) : List String :=
  [timestamp2str w.dt,
   toString w.temp ++ " C, " ++ toString w.humidity ++ "%"]

/-- `App.paint_weather_small`: fetch the icon, draw time and temperature
lines onto the buffer (no clear). A `None` snapshot raises. -/
def paint_small (owm : Owm) (w? : Option Weather) (s : AppState) : OpResult :=
  match w? with
  | none =>
      { state := s, events := [],
        result := .error "TypeError: NoneType object is not subscriptable" }
  | some w =>
      match owm.icon w.icon with
      | .error e =>
          { state := s, events := [.fetchIcon w.icon], result := .error e }
      | .ok _ =>
          { state := { s with screen := s.screen ++ paint_small_lines w },
            events := [.fetchIcon w.icon],
            result := .ok () }

/-- The `for weather, xy in zip(weathers, xys)` loop of `App.four_view`:
paint each snapshot in turn, stopping at the first raise. -/
def paint_small_list (owm : Owm) (ws : List (Option Weather)) (s : AppState) :
    OpResult :=
  match ws with
  | [] => { state := s, events := [], result := .ok () }
  | w :: rest =>
      let r := paint_small owm w s
      match r.result with
      | .error e => { state := r.state, events := r.events, result := .error e }
      | .ok _ =>
          let r2 := paint_small_list owm rest r.state
          { state := r2.state, events := r.events ++ r2.events,
            result := r2.result }

/-- `App.four_view`: LED yellow, refresh both caches, LED off — all
inside `try/except` — then clear, slice `[current, *forecasts][fidx :
fidx+4]`, paint up to four small panes, rebind handlers, redraw. -/
def four_view (owm : Owm) (now : Int) (s : AppState) : OpResult :=
  let s0 := { s with led := .yellow }
  let r1 := update_current_weather owm now s0
  let su : AppState × List Ev :=
    match r1.result with
    | .error e => (handle r1.state e, .setLed .yellow :: r1.events)
    | .ok _ =>
        let r2 := update_forecasts owm now r1.state
        match r2.result with
        | .error e =>
            (handle r2.state e, .setLed .yellow :: (r1.events ++ r2.events))
        | .ok _ =>
            ({ r2.state with led := .off },
             .setLed .yellow :: (r1.events ++ r2.events) ++ [.setLed .off])
  let s1 := su.1
  let ev1 := su.2
  let s2 := { s1 with screen := [] }
  let weathers : List (Option Weather) :=
    pySlice (s1.current_weather :: s1.forecasts.map some) s1.fidx (s1.fidx + 4)
  let rp := paint_small_list owm weathers s2
  match rp.result with
  | .error e =>
      { state := rp.state, events := ev1 ++ rp.events, result := .error e }
  | .ok _ =>
      { state := { rp.state with buttonAction := .fourB, loopAction := .fourL },
        events := ev1 ++ rp.events ++ [.redraw],
        result := .ok () }

/-- `App.errors_view` with the network-interface summary lines passed in
(`ip_str()` is an external, memoised collaborator): LED off, clear, draw
and drain the error list if non-empty (else "No errors!"), draw the ip
lines, rebind the button handler to the A-only callback and the loop
handler to `None`, redraw.  It cannot raise. -/
def errors_view (ip : List String) (s : AppState) : AppState :=
  let s0 := { s with led := LedColor.off, screen := [] }
  let s1 :=
    if s0.errors ≠ [] then
      { s0 with screen := "Errors" :: s0.errors, errors := [] }
    else
      { s0 with screen := ["No errors!"] }
  { s1 with screen := s1.screen ++ ip,
            buttonAction := .errorsB,
            loopAction := .noneL }

/-- The single hardware button callback `CallbackHandler.act` +
the closure currently bound: a no-press reading is a no-op; otherwise the
pin is dispatched against the callback installed by the active view
(`weatherscreen.py` lines 230-244, 299-313, 347-351). -/
def press (owm : Owm) (now : Int) (ip : List String) (isDown : Bool)
    (pin : Pin) (s : AppState) : OpResult :=
  if !isDown then { state := s, events := [], result := .ok () }
  else
    match s.buttonAction with
    | .initB => { state := s, events := [], result := .ok () }
    | .pageB =>
        match pin with
        | .A => four_view owm now s
        | .B => { state := errors_view ip s, events := [], result := .ok () }
        | .X => page_view owm now { s with fidx := max 0 (s.fidx - 1) }
        | .Y =>
            page_view owm now
              { s with fidx := min ((s.forecasts.length : Int) + 1) (s.fidx + 1) }
    | .fourB =>
        match pin with
        | .A => page_view owm now s
        | .B => { state := errors_view ip s, events := [], result := .ok () }
        | .X => four_view owm now { s with fidx := max 0 (s.fidx - 4) }
        | .Y =>
            four_view owm now
              { s with fidx := min ((s.forecasts.length : Int)) (s.fidx + 4) }
    | .errorsB =>
        match pin with
        | .A => page_view owm now s
        | _ => { state := s, events := [], result := .ok () }

/-- `LoopHandler.act`: run the bound action, catching any raise with
`app.handle` (the timer rescheduling is outside the state model). -/
def tick (owm : Owm) (now : Int) (s : AppState) : AppState :=
  match s.loopAction with
  | .noneL => s
  | .pageL =>
      let r := page_view owm now s
      match r.result with
      | .ok _ => r.state
      | .error e => handle r.state e
  | .fourL =>
      let r := four_view owm now s
      match r.result with
      | .ok _ => r.state
      | .error e => handle r.state e

/-- The attribute initialisation in `App.__init__`, before `errors_view`
runs: empty error list, no cached weather, empty forecasts,
`last_update_forecasts = 0`, `fidx = 0`, the initial no-op button lambda,
loop action `None`. -/
def initialAttrs : AppState :=
  { errors := []
    current_weather := none
    forecasts := []
    last_update_forecasts := 0
    fidx := 0
    led := .off
    screen := []
    buttonAction := .initB
    loopAction := .noneL }

/-- `App.__init__`: initialise the attributes, then `self.errors_view()`. -/
def App_init (ip : List String) : AppState :=
  errors_view ip initialAttrs

/-- A cursor adjustment direction: the "next" (`BUTTON_Y`) and
"previous" (`BUTTON_X`) buttons of a paging view. -/
inductive Adj
  | next
  | previous
  deriving DecidableEq, Repr

/-- The `fidx` update of `views.py` `PageView.buttonX`/`buttonY`:
`max(0, fidx - 1)` and `min(len(forecasts), fidx + 1)`. -/
def PageView_adjust (nForecasts : Nat) : Adj → Int → Int
  | .next, fidx => min (nForecasts : Int) (fidx + 1)
  | .previous, fidx => max 0 (fidx - 1)

/-- A sequence of `views.py` PageView cursor adjustments, applied left to
right. -/
def PageView_adjustSeq (nForecasts : Nat) (l : List Adj) (fidx : Int) : Int :=
  l.foldl (fun f a => PageView_adjust nForecasts a f) fidx

/-- The `fidx` update of the `weatherscreen.py` `page_view` button
callback: `max(0, fidx - 1)` for X and `min(len(forecasts) + 1, fidx + 1)`
for Y. -/
def ws_page_adjust (nForecasts : Nat) : Adj → Int → Int
  | .next, fidx => min ((nForecasts : Int) + 1) (fidx + 1)
  | .previous, fidx => max 0 (fidx - 1)

/-- A sequence of `weatherscreen.py` page-view cursor adjustments,
applied left to right. -/
def ws_page_adjustSeq (nForecasts : Nat) (l : List Adj) (fidx : Int) : Int :=
  l.foldl (fun f a => ws_page_adjust nForecasts a f) fidx

/-- Iterate a press of the same pin, threading the state on (callback
raises escape to the GPIO thread but the mutations persist and the next
press still fires). -/
def pressIter (owm : Owm) (now : Int) (ip : List String) (pin : Pin) :
    Nat → AppState → AppState
  | 0, s => s
  | n + 1, s => pressIter owm now ip pin n (press owm now ip true pin s).state

/-! ### Concrete example inputs used in counterexamples and witnesses -/

/-- A sample snapshot with timestamp `k`. -/
def wEx (k : Int) : Weather :=
  { dt := k, temp := 20, feels_like := 19, humidity := 50, icon := "01d",
    name := none }

/-- A provider whose every call succeeds. -/
def owmOk : Owm :=
  { current := .ok (wEx 1000), forecasts := .ok [wEx 2000, wEx 3000],
    icon := fun _ => .ok () }

/-- A provider whose current-weather call raises. -/
def owmBad : Owm :=
  { current := .error "boom", forecasts := .ok [], icon := fun _ => .ok () }

/-- A provider that succeeds but returns a current snapshot whose
observation timestamp is far in the past. -/
def owmStale : Owm :=
  { current := .ok (wEx 0), forecasts := .ok [], icon := fun _ => .ok () }

/-- A provider that succeeds and returns a current snapshot observed 10
seconds before `now = 1000`. -/
def owmFresh : Owm :=
  { current := .ok (wEx 990), forecasts := .ok [], icon := fun _ => .ok () }

/-- A ten-entry forecast series. -/
def fc10 : List Weather := (List.range 10).map (fun i => wEx (1000 + i))

/-- A Page-view state at `fidx = 0` with a fresh current snapshot and ten
fresh forecasts (`now = 1000`). -/
def sPage10 : AppState :=
  { errors := [], current_weather := some (wEx 1000), forecasts := fc10,
    last_update_forecasts := 1000, fidx := 0, led := .off, screen := [],
    buttonAction := .pageB, loopAction := .pageL }

/-- The matching provider for `sPage10`. -/
def owm10 : Owm :=
  { current := .ok (wEx 1000), forecasts := .ok fc10, icon := fun _ => .ok () }

/-- A state whose cursor sits at 5 with an empty forecast cache, due for
a refetch. -/
def sFidx5 : AppState := { initialAttrs with fidx := 5 }

/-- A state holding one future-dated forecast entry (lead time well over
an hour at `now = 1000000`) fetched long ago (`last_update_forecasts =
0`). -/
def sLead : AppState :=
  { initialAttrs with forecasts := [wEx 2000000], last_update_forecasts := 0,
                      fidx := 3 }

/-- A cached current snapshot of age exactly 299 at `now = 1000`. -/
def sAge299 : AppState :=
  { initialAttrs with current_weather := some (wEx 701) }

/-- A cached current snapshot of age exactly 59 at `now = 1000`. -/
def sAge59 : AppState :=
  { initialAttrs with current_weather := some (wEx 941) }

/-- A cached current snapshot of age exactly 60 at `now = 1000`. -/
def sAge60 : AppState :=
  { initialAttrs with current_weather := some (wEx 940) }

/-- A state with three recorded errors. -/
def sErr3 : AppState := { initialAttrs with errors := ["E1", "E2", "E3"] }

/-! ### Frame lemmas shared by several claim proofs -/

lemma fetch_current_frame (owm : Owm) (s : AppState) :
    (fetch_current owm s).state.errors = s.errors
    ∧ (fetch_current owm s).state.forecasts = s.forecasts
    ∧ (fetch_current owm s).state.last_update_forecasts
        = s.last_update_forecasts
    ∧ (fetch_current owm s).state.fidx = s.fidx
    ∧ (fetch_current owm s).state.screen = s.screen := by
  unfold fetch_current
  cases h : owm.current <;> simp [h]

lemma update_current_frame (owm : Owm) (now : Int) (s : AppState) :
    (update_current_weather owm now s).state.errors = s.errors
    ∧ (update_current_weather owm now s).state.forecasts = s.forecasts
    ∧ (update_current_weather owm now s).state.last_update_forecasts
        = s.last_update_forecasts
    ∧ (update_current_weather owm now s).state.fidx = s.fidx
    ∧ (update_current_weather owm now s).state.screen = s.screen := by
  unfold update_current_weather
  cases h : s.current_weather with
  | none => exact fetch_current_frame owm s
  | some w =>
    by_cases hlt : now - w.dt < 60
    · simp [hlt]
    · simpa [hlt] using fetch_current_frame owm s

lemma update_forecasts_frame (owm : Owm) (now : Int) (s : AppState) :
    (update_forecasts owm now s).state.errors = s.errors
    ∧ (update_forecasts owm now s).state.current_weather = s.current_weather
    ∧ (update_forecasts owm now s).state.fidx = s.fidx
    ∧ (update_forecasts owm now s).state.screen = s.screen := by
  unfold update_forecasts
  split
  · simp
  · cases h : owm.forecasts <;> simp [h]

lemma paint_weather_frame (owm : Owm) (w? : Option Weather) (s : AppState) :
    (paint_weather owm w? s).state.errors = s.errors
    ∧ (paint_weather owm w? s).state.current_weather = s.current_weather
    ∧ (paint_weather owm w? s).state.forecasts = s.forecasts
    ∧ (paint_weather owm w? s).state.fidx = s.fidx
    ∧ (paint_weather owm w? s).state.led = s.led := by
  unfold paint_weather
  cases w? with
  | none => simp
  | some w => cases h : owm.icon w.icon <;> simp [h]

lemma paint_small_frame (owm : Owm) (w? : Option Weather) (s : AppState) :
    (paint_small owm w? s).state.errors = s.errors
    ∧ (paint_small owm w? s).state.fidx = s.fidx := by
  unfold paint_small
  cases w? with
  | none => simp
  | some w => cases h : owm.icon w.icon <;> simp [h]

lemma paint_small_list_errors (owm : Owm) (ws : List (Option Weather))
    (s : AppState) : (paint_small_list owm ws s).state.errors = s.errors := by
  induction ws generalizing s with
  | nil => simp [paint_small_list]
  | cons w rest ih =>
    unfold paint_small_list
    cases h : (paint_small owm w s).result <;>
      simp [h, (paint_small_frame owm w s).1, ih]

lemma handle_errors (s : AppState) (e : Err) :
    (handle s e).errors = s.errors ++ [e] := rfl

lemma page_view_errors (owm : Owm) (now : Int) (s : AppState) :
    ∃ d, (page_view owm now s).state.errors = s.errors ++ d := by
  unfold page_view
  cases h1 : (update_current_weather owm now s).result with
  | error e =>
    refine ⟨[e], ?_⟩
    have hs1 : (handle (update_current_weather owm now s).state e).errors
        = s.errors ++ [e] := by
      rw [handle_errors, (update_current_frame owm now s).1]
    simp only [h1]
    split
    · simpa using hs1
    · split <;>
        simp [(paint_weather_frame owm _ _).1, hs1]
  | ok u =>
    cases h2 : (update_forecasts owm now
        (update_current_weather owm now s).state).result with
    | error e =>
      refine ⟨[e], ?_⟩
      have hs1 : (handle (update_forecasts owm now
          (update_current_weather owm now s).state).state e).errors
          = s.errors ++ [e] := by
        rw [handle_errors, (update_forecasts_frame owm now _).1,
          (update_current_frame owm now s).1]
      simp only [h1, h2]
      split
      · simpa using hs1
      · split <;>
          simp [(paint_weather_frame owm _ _).1, hs1]
    | ok v =>
      refine ⟨[], ?_⟩
      have hs1 : (update_forecasts owm now
          (update_current_weather owm now s).state).state.errors
          = s.errors := by
        rw [(update_forecasts_frame owm now _).1,
          (update_current_frame owm now s).1]
      simp only [h1, h2]
      split
      · simpa using hs1
      · split <;>
          simp [(paint_weather_frame owm _ _).1, hs1]

lemma four_view_errors (owm : Owm) (now : Int) (s : AppState) :
    ∃ d, (four_view owm now s).state.errors = s.errors ++ d := by
  unfold four_view
  cases h1 : (update_current_weather owm now { s with led := .yellow }).result
      with
  | error e =>
    refine ⟨[e], ?_⟩
    have hs1 : (handle (update_current_weather owm now
        { s with led := LedColor.yellow }).state e).errors
        = s.errors ++ [e] := by
      rw [handle_errors,
        (update_current_frame owm now { s with led := LedColor.yellow }).1]
    simp only [h1]
    split <;> simp [paint_small_list_errors, hs1]
  | ok u =>
    cases h2 : (update_forecasts owm now (update_current_weather owm now
        { s with led := LedColor.yellow }).state).result with
    | error e =>
      refine ⟨[e], ?_⟩
      have hs1 : (handle (update_forecasts owm now
          (update_current_weather owm now
            { s with led := LedColor.yellow }).state).state e).errors
          = s.errors ++ [e] := by
        rw [handle_errors, (update_forecasts_frame owm now _).1,
          (update_current_frame owm now { s with led := LedColor.yellow }).1]
      simp only [h1, h2]
      split <;> simp [paint_small_list_errors, hs1]
    | ok v =>
      refine ⟨[], ?_⟩
      have hs1 : (update_forecasts owm now (update_current_weather owm now
          { s with led := LedColor.yellow }).state).state.errors
          = s.errors := by
        rw [(update_forecasts_frame owm now _).1,
          (update_current_frame owm now { s with led := LedColor.yellow }).1]
      simp only [h1, h2]
      split <;> simp [paint_small_list_errors, hs1]

lemma tick_errors (owm : Owm) (now : Int) (s : AppState) :
    ∃ d, (tick owm now s).errors = s.errors ++ d := by
  unfold tick
  cases hl : s.loopAction with
  | noneL => exact ⟨[], by simp⟩
  | pageL =>
    obtain ⟨d, hd⟩ := page_view_errors owm now s
    cases h : (page_view owm now s).result with
    | ok u => exact ⟨d, by simpa [h] using hd⟩
    | error e => exact ⟨d ++ [e], by simp [h, handle_errors, hd]⟩
  | fourL =>
    obtain ⟨d, hd⟩ := four_view_errors owm now s
    cases h : (four_view owm now s).result with
    | ok u => exact ⟨d, by simpa [h] using hd⟩
    | error e => exact ⟨d ++ [e], by simp [h, handle_errors, hd]⟩

/-! ### The refresh condition as the specification words it -/

/-- The skip condition of `get_forecast` as the spec words it, for
comparison with `update_forecasts`: "returns the cached series if
non-empty and `cached[0].timestamp >= now + forecast_refresh_margin`"
— a forward-looking lead-time test on the forecast data itself. -/
def spec_get_forecast_skip (margin now : Int) (fs : List Weather) : Bool :=
  match fs with
  | [] => false
  | w :: _ => decide (w.dt ≥ now + margin)

/-! ### Claim theorems -/

/-- C3 counterexample: at `now = 10000` the state `sFidx5` (cursor at 5,
empty forecast cache) forces an actual refetch — the series is replaced
and a fetch event is issued — yet the cursor stays at 5 instead of being
reset to 0. -/
theorem C3_no_reset_counterexample :
    Ev.fetchForecasts ∈ (update_forecasts owmOk 10000 sFidx5).events
    ∧ (update_forecasts owmOk 10000 sFidx5).state.forecasts
        = [wEx 2000, wEx 3000]
    ∧ (update_forecasts owmOk 10000 sFidx5).state.fidx = 5
    ∧ ¬ (update_forecasts owmOk 10000 sFidx5).state.fidx = 0 := by decide

/-- C3 as amended: `update_forecasts` never modifies the cursor — after
an actual refetch (as after a skip) `fidx` keeps its prior value; in the
`sFidx5` refetch it stays 5. -/
theorem C3_fidx_untouched :
    (∀ owm now s, (update_forecasts owm now s).state.fidx = s.fidx)
    ∧ (update_forecasts owmOk 10000 sFidx5).state.forecasts
        = [wEx 2000, wEx 3000]
    ∧ (update_forecasts owmOk 10000 sFidx5).state.fidx = 5 :=
  ⟨fun owm now s => (update_forecasts_frame owm now s).2.2.1,
   by decide, by decide⟩

/-- C4 counterexample: the state `sLead` holds one forecast entry whose
timestamp is far past `now + 3600` — the spec's lead-time condition for
returning the cache without fetching holds — yet the code fetches,
because its actual test is the backward age of `last_update_forecasts`. -/
theorem C4_lead_margin_counterexample :
    spec_get_forecast_skip 3600 1000000 sLead.forecasts = true
    ∧ Ev.fetchForecasts ∈ (update_forecasts owmOk 1000000 sLead).events := by
  decide

/-- C4 as amended: `update_forecasts` returns the cached series without
fetching iff the series is non-empty and `last_update_forecasts ≥ now -
3600` — a backward age test on the time of the last fetch, not a
lead-time test on the forecast data; a skip leaves the state untouched,
and otherwise a successful fetch replaces the entire series and records
the fetch time. -/
theorem C4_backward_age_iff :
    (∀ owm now s,
      Ev.fetchForecasts ∉ (update_forecasts owm now s).events
        ↔ (s.forecasts ≠ [] ∧ s.last_update_forecasts ≥ now - 3600))
    ∧ (∀ owm now s, (s.forecasts ≠ [] ∧ s.last_update_forecasts ≥ now - 3600) →
        (update_forecasts owm now s).state = s)
    ∧ (∀ owm now s fs', owm.forecasts = .ok fs' →
        ¬ (s.forecasts ≠ [] ∧ s.last_update_forecasts ≥ now - 3600) →
        (update_forecasts owm now s).state.forecasts = fs'
        ∧ (update_forecasts owm now s).state.last_update_forecasts = now) := by
  refine ⟨fun owm now s => ?_, fun owm now s h => ?_, fun owm now s fs' hf h => ?_⟩
  · unfold update_forecasts
    split
    · rename_i hcond
      simpa using hcond
    · rename_i hcond
      cases ho : owm.forecasts <;>
        · simp [ho]
          intro hne
          have hb : ¬ (s.last_update_forecasts ≥ now - 3600) :=
            fun hb2 => hcond ⟨hne, hb2⟩
          omega
  · simp [update_forecasts, h]
  · unfold update_forecasts
    split
    · rename_i hcond
      exact absurd hcond h
    · simp [hf]

/-- C5 counterexample: a cached snapshot of age exactly 299 (at
`now = 1000`) is refetched by the code, although 299 < 300 and the claim
says a 299-second-old snapshot is reused under `current_max_age = 300`. -/
theorem C5_age299_refetched :
    Ev.fetchCurrent ∈ (update_current_weather owmOk 1000 sAge299).events
    ∧ ((1000 : Int) - 701 < 300) := by decide

/-- C5 as amended: the hard-coded threshold is 60 seconds, not a
configurable 300 — `update_current_weather` skips the fetch exactly when
a snapshot is cached and `now - dt < 60`; at the boundary, age 59 is
reused and age 60 triggers a refetch. -/
theorem C5_threshold_is_60 :
    (∀ owm now s,
      Ev.fetchCurrent ∉ (update_current_weather owm now s).events
        ↔ ∃ w, s.current_weather = some w ∧ now - w.dt < 60)
    ∧ Ev.fetchCurrent ∉ (update_current_weather owmOk 1000 sAge59).events
    ∧ Ev.fetchCurrent ∈ (update_current_weather owmOk 1000 sAge60).events := by
  refine ⟨fun owm now s => ?_, by decide, by decide⟩
  unfold update_current_weather fetch_current
  cases hc : s.current_weather with
  | none => cases ho : owm.current <;> simp [ho]
  | some w =>
    by_cases hlt : now - w.dt < 60
    · simp [hlt]
    · cases ho : owm.current <;> simp [ho, hlt]

/-- C7 counterexample: when the provider's current-weather call raises
with no snapshot cached, `update_current_weather` exits with the LED
still yellow — no LED-off write happens on the failure path. -/
theorem C7_led_left_asserted :
    (update_current_weather owmBad 1000 initialAttrs).state.led
        = LedColor.yellow
    ∧ (update_current_weather owmBad 1000 initialAttrs).events
        = [Ev.setLed .yellow, Ev.fetchCurrent]
    ∧ Ev.setLed LedColor.off
        ∉ (update_current_weather owmBad 1000 initialAttrs).events := by decide

/-- C7 as amended: both refresh operations assert the busy LED
immediately before their network fetch, but restore it to off only on
the success path; on a failed fetch the operation exits (raising) with
the LED still asserted. -/
theorem C7_busy_restored_on_success_only :
    (∀ owm now s,
      (update_current_weather owm now s).events = []
      ∨ ((update_current_weather owm now s).events
            = [.setLed .yellow, .fetchCurrent, .setLed .off]
          ∧ (update_current_weather owm now s).state.led = .off
          ∧ (update_current_weather owm now s).result = .ok ())
      ∨ ((update_current_weather owm now s).events
            = [.setLed .yellow, .fetchCurrent]
          ∧ (update_current_weather owm now s).state.led = .yellow
          ∧ ∃ e, (update_current_weather owm now s).result = .error e))
    ∧ (∀ owm now s,
      (update_forecasts owm now s).events = []
      ∨ ((update_forecasts owm now s).events
            = [.setLed .yellow, .fetchForecasts, .setLed .off]
          ∧ (update_forecasts owm now s).state.led = .off
          ∧ (update_forecasts owm now s).result = .ok ())
      ∨ ((update_forecasts owm now s).events
            = [.setLed .yellow, .fetchForecasts]
          ∧ (update_forecasts owm now s).state.led = .yellow
          ∧ ∃ e, (update_forecasts owm now s).result = .error e)) := by
  constructor
  · intro owm now s
    unfold update_current_weather fetch_current
    cases hc : s.current_weather with
    | none => cases ho : owm.current <;> simp [ho]
    | some w =>
      by_cases hlt : now - w.dt < 60
      · simp [hlt]
      · cases ho : owm.current <;> simp [ho, hlt]
  · intro owm now s
    unfold update_forecasts
    split
    · simp
    · cases ho : owm.forecasts <;> simp [ho]

/-- C8: when the provider call raises, neither refresh operation mutates
its cache — the cached current snapshot, the forecast series and the
last-fetch time all keep their prior values — and if the operation did
issue the fetch, the provider's failure is propagated to the caller
unchanged. -/
theorem C8_failure_preserves_cache (owm : Owm) (now : Int) (s : AppState)
    (e : Err) :
    (owm.current = .error e →
      (update_current_weather owm now s).state.current_weather
          = s.current_weather
      ∧ (update_current_weather owm now s).state.forecasts = s.forecasts
      ∧ (update_current_weather owm now s).state.last_update_forecasts
          = s.last_update_forecasts
      ∧ (Ev.fetchCurrent ∈ (update_current_weather owm now s).events →
          (update_current_weather owm now s).result = .error e))
    ∧ (owm.forecasts = .error e →
      (update_forecasts owm now s).state.forecasts = s.forecasts
      ∧ (update_forecasts owm now s).state.last_update_forecasts
          = s.last_update_forecasts
      ∧ (update_forecasts owm now s).state.current_weather
          = s.current_weather
      ∧ (Ev.fetchForecasts ∈ (update_forecasts owm now s).events →
          (update_forecasts owm now s).result = .error e)) := by
  constructor
  · intro h
    unfold update_current_weather fetch_current
    cases hc : s.current_weather with
    | none => simp [h]
    | some w =>
      by_cases hlt : now - w.dt < 60
      · simp [hlt, hc]
      · simp [hlt, hc, h]
  · intro h
    unfold update_forecasts
    split
    · simp
    · simp [h]

/-- C8 witness: with the failing provider `owmBad` and no cached
snapshot, the cache fields survive the failed refresh and the failure is
propagated. -/
theorem C8_failure_preserves_cache_witness :
    (update_current_weather owmBad 1000 initialAttrs).state.current_weather
        = initialAttrs.current_weather
    ∧ (update_current_weather owmBad 1000 initialAttrs).state.forecasts
        = initialAttrs.forecasts
    ∧ (update_current_weather owmBad 1000
        initialAttrs).state.last_update_forecasts
        = initialAttrs.last_update_forecasts
    ∧ (Ev.fetchCurrent ∈ (update_current_weather owmBad 1000
        initialAttrs).events →
        (update_current_weather owmBad 1000 initialAttrs).result
          = .error "boom") :=
  (C8_failure_preserves_cache owmBad 1000 initialAttrs "boom").1 rfl

/-- C9 counterexample: the reuse test compares `now` against the
timestamp inside the fetched data, so a provider whose snapshot is
already 60 seconds old defeats it — two immediate calls with the same
`now` both fetch. -/
theorem C9_two_fetches_counterexample :
    ((update_current_weather owmStale 1000 initialAttrs).events
      ++ (update_current_weather owmStale 1000
            (update_current_weather owmStale 1000
              initialAttrs).state).events).count Ev.fetchCurrent = 2 := by
  decide

/-- C9 as amended: two immediate calls with the same `now` issue at most
one fetch provided the snapshot the provider returns is fresh
(`now - dt < 60`); the code's reuse test reads the timestamp inside the
fetched data, so the guarantee holds only under that proviso. -/
theorem C9_single_fetch_when_fresh (owm owm2 : Owm) (now : Int)
    (s : AppState) (w : Weather) (h1 : owm.current = .ok w)
    (h2 : now - w.dt < 60) :
    ((update_current_weather owm now s).events
      ++ (update_current_weather owm2 now
            (update_current_weather owm now s).state).events).count
        Ev.fetchCurrent ≤ 1 := by
  unfold update_current_weather fetch_current
  cases hc : s.current_weather with
  | none => simp [h1, h2]
  | some w0 =>
    by_cases hlt : now - w0.dt < 60
    · simp [hlt, hc]
    · simp [hlt, hc, h1, h2]

/-- C9 witness: with a provider returning a 10-second-old snapshot, two
immediate calls at `now = 1000` on an empty cache issue at most one
fetch. -/
theorem C9_single_fetch_when_fresh_witness :
    ((update_current_weather owmFresh 1000 initialAttrs).events
      ++ (update_current_weather owmFresh 1000
            (update_current_weather owmFresh 1000
              initialAttrs).state).events).count Ev.fetchCurrent ≤ 1 :=
  C9_single_fetch_when_fresh owmFresh owmFresh 1000 initialAttrs (wEx 990)
    rfl (by decide)

lemma pyIndex_zero {α : Type} (x : α) (l : List α) :
    pyIndex (x :: l) 0 = .ok x := by
  simp [pyIndex]

/-- C1: evaluating the `weatherscreen.py` page-view cursor code at the
claim's scenario — ten forecasts, cursor starting at 0 — eleven "next"
presses drive `fidx` to 11, not 10 (the clamp bound is
`len(forecasts) + 1`), and the eleventh press's re-render then raises
`IndexError` because `[current, *forecasts]` has only indices 0..10; the
`views.py` `PageView` adjustment, in contrast, clamps at
`len(forecasts)` and yields 10. -/
theorem C1_cursor_overflow :
    ws_page_adjustSeq 10 (List.replicate 11 .next) 0 = 11
    ∧ (pressIter owm10 1000 [] .Y 11 sPage10).fidx = 11
    ∧ ¬ ((pressIter owm10 1000 [] .Y 11 sPage10).fidx ≤ 10)
    ∧ (press owm10 1000 [] true .Y
        (pressIter owm10 1000 [] .Y 10 sPage10)).result
        = .error "IndexError: list index out of range"
    ∧ PageView_adjustSeq 10 (List.replicate 11 .next) 0 = 10 := by decide

/-- C2 counterexample: with no cached current weather and a failing
current-weather fetch, the Page-view render at `fidx = 0` records
exactly one error but then raises out of the render entry point (the
paint step subscripts the absent snapshot), so the render does not
complete. -/
theorem C2_render_raise_counterexample :
    (page_view owmBad 1000 initialAttrs).state.errors = ["boom"]
    ∧ (page_view owmBad 1000 initialAttrs).result
        = .error "TypeError: NoneType object is not subscriptable"
    ∧ (page_view owmBad 1000 initialAttrs).result ≠ .ok () := by decide

/-- C2 as amended: with no cached current weather, a failing
current-weather fetch during a Page-view render at `fidx = 0` appends
exactly one record to the error sink, but the render pass then raises
(subscripting the absent snapshot in the paint step) instead of
completing. -/
theorem C2_one_record_then_raise (owm : Owm) (now : Int) (s : AppState)
    (e : Err) (hc : s.current_weather = none) (hf : s.fidx = 0)
    (he : owm.current = .error e) :
    (page_view owm now s).state.errors = s.errors ++ [e]
    ∧ (page_view owm now s).result
        = .error "TypeError: NoneType object is not subscriptable" := by
  have h1 : update_current_weather owm now s =
      { state := { s with led := .yellow },
        events := [.setLed .yellow, .fetchCurrent],
        result := .error e } := by
    simp [update_current_weather, fetch_current, hc, he]
  unfold page_view
  rw [h1]
  simp [handle, paint_weather, pyIndex_zero, hc, hf]

/-- C2 witness: the amended behaviour at the concrete failing scenario
`owmBad` / `initialAttrs`. -/
theorem C2_one_record_then_raise_witness :
    (page_view owmBad 1000 initialAttrs).state.errors
        = initialAttrs.errors ++ ["boom"]
    ∧ (page_view owmBad 1000 initialAttrs).result
        = .error "TypeError: NoneType object is not subscriptable" :=
  C2_one_record_then_raise owmBad 1000 initialAttrs "boom" rfl rfl rfl

/-- C6: recording E1, E2, E3 and then rendering the Errors view displays
them in arrival order ("Errors" heading, then E1, E2, E3, then the ip
lines) and empties the sink; an immediately repeated render shows
"No errors!" and the sink stays empty.  `errors_view` always leaves the
sink empty, and no other operation removes a recorded error: the cache
refreshes and paint helpers leave the sink untouched, `handle` appends
exactly one record, and the Page/Four renders and the timer tick only
ever append. -/
theorem C6_drain_order_exclusive :
    (∀ s e1 e2 e3 ip, s.errors = [e1, e2, e3] →
        (errors_view ip s).errors = []
        ∧ (errors_view ip s).screen = "Errors" :: e1 :: e2 :: e3 :: ip
        ∧ (errors_view ip (errors_view ip s)).errors = []
        ∧ (errors_view ip (errors_view ip s)).screen = "No errors!" :: ip)
    ∧ (∀ ip s, (errors_view ip s).errors = [])
    ∧ (∀ owm now s, (update_current_weather owm now s).state.errors = s.errors)
    ∧ (∀ owm now s, (update_forecasts owm now s).state.errors = s.errors)
    ∧ (∀ s e, (handle s e).errors = s.errors ++ [e])
    ∧ (∀ owm w? s, (paint_weather owm w? s).state.errors = s.errors)
    ∧ (∀ owm ws s, (paint_small_list owm ws s).state.errors = s.errors)
    ∧ (∀ owm now s, ∃ d, (page_view owm now s).state.errors = s.errors ++ d)
    ∧ (∀ owm now s, ∃ d, (four_view owm now s).state.errors = s.errors ++ d)
    ∧ (∀ owm now s, ∃ d, (tick owm now s).errors = s.errors ++ d) := by
  refine ⟨fun s e1 e2 e3 ip h => ?_, fun ip s => ?_,
    fun owm now s => (update_current_frame owm now s).1,
    fun owm now s => (update_forecasts_frame owm now s).1,
    handle_errors,
    fun owm w? s => (paint_weather_frame owm w? s).1,
    paint_small_list_errors, page_view_errors, four_view_errors,
    tick_errors⟩
  · simp [errors_view, h]
  · unfold errors_view
    dsimp only
    split
    · simp
    · rename_i hcond
      simpa using hcond

/-- C10: right after `App.__init__` the Errors view is active and has
rendered ("No errors!" plus the ip lines are on the buffer), the cursor
is 0, the error sink is empty, no current weather is cached and the
forecast series is empty; the bound button callback reacts only to
button A — any other pin is a complete no-op — and pressing A runs the
Page view, while the periodic tick action is the no-op. -/
theorem C10_init_errors_view :
    (∀ ip, (App_init ip).buttonAction = .errorsB)
    ∧ (∀ ip, (App_init ip).loopAction = .noneL)
    ∧ (∀ ip, (App_init ip).fidx = 0)
    ∧ (∀ ip, (App_init ip).errors = [])
    ∧ (∀ ip, (App_init ip).current_weather = none)
    ∧ (∀ ip, (App_init ip).forecasts = [])
    ∧ (∀ ip, (App_init ip).screen = "No errors!" :: ip)
    ∧ (∀ ip owm now, tick owm now (App_init ip) = App_init ip)
    ∧ (∀ ip ip2 owm now pin, pin ≠ Pin.A →
        press owm now ip2 true pin (App_init ip)
          = { state := App_init ip, events := [], result := .ok () })
    ∧ (∀ ip ip2 owm now,
        press owm now ip2 true Pin.A (App_init ip)
          = page_view owm now (App_init ip)) := by
  refine ⟨fun ip => rfl, fun ip => rfl, fun ip => rfl, fun ip => rfl,
    fun ip => rfl, fun ip => rfl, fun ip => rfl, fun ip owm now => rfl,
    fun ip ip2 owm now pin hpin => ?_, fun ip ip2 owm now => rfl⟩
  cases pin with
  | A => exact absurd rfl hpin
  | B => rfl
  | X => rfl
  | Y => rfl

end Weatherscreen
